import Mathlib

/-!
Verification of the `ulab` repository: a single Jupyter notebook,
`src/ULAB_FRBs.ipynb`.  The notebook is a JSON document; we embed that
document faithfully as a term `ulabJson` of a small JSON syntax tree
`JValue`, extract its cells, and reason about the cell contents with
decidable line classifiers (blank line, comment line, import statement,
ill-formed statement) that model how a Python 3.8 kernel treats each
line of a code cell.
-/

set_option maxRecDepth 100000

namespace ULab

/-- A JSON value.  `ulabJson` below is the parse tree of the notebook
file `src/ULAB_FRBs.ipynb`; all numbers occurring in that file are
integers, so `jnum` carries an `Int`. -/
inductive JValue where
  | jnull : JValue
  | jbool : Bool → JValue
  | jnum : Int → JValue
  | jstr : String → JValue
  | jarr : List JValue → JValue
  | jobj : List (String × JValue) → JValue

def ulabJson : JValue :=
  .jobj [("cells", .jarr [.jobj [("cell_type", .jstr "markdown"),
       ("id", .jstr "competent-timeline"),
       ("metadata", .jobj []),
       ("source", .jarr [.jstr "## ULAB FRBs\n",
         .jstr "#### Kyle Miller"])],
     .jobj [("cell_type", .jstr "code"),
       ("execution_count", .jnum 1),
       ("id", .jstr "composed-starter"),
       ("metadata", .jobj []),
       ("outputs", .jarr []),
       ("source", .jarr [.jstr "# these are useful packages to import for astronomy (typical syntax)\n",
         .jstr "import astropy.units as u\n",
         .jstr "import astropy.constants as c\n",
         .jstr "\n",
         .jstr "# these are typical packages used in jupyter notebooks\n",
         .jstr "import numpy as np\n",
         .jstr "import matplotlib.pyplot as plt\n",
         .jstr "from tqdm import tqdm\n",
         .jstr "\n",
         .jstr "# these are useful packages for science/engineering in general\n",
         .jstr "from scipy import signal\n",
         .jstr "from scipy import integrate\n",
         .jstr "from scipy import fftpack\n",
         .jstr "from scipy import optimize\n",
         .jstr "from scipy import ndimage\n",
         .jstr " \n",
         .jstr "# this is the package for plasma-related physics (it uses astropy)\n",
         .jstr "from plasmapy import dispersion\n",
         .jstr "from plasmapy import formulary\n",
         .jstr "from plasmapy import simulation\n",
         .jstr "\n",
         .jstr "# to get interactive plots uncomment the \"magic\" line below\n",
         .jstr "# %matplotlib notebook"])],
     .jobj [("cell_type", .jstr "markdown"),
       ("id", .jstr "democratic-liver"),
       ("metadata", .jobj []),
       ("source", .jarr [.jstr "### Astronomy: gravitation and electromagnetism\n",
         .jstr "\n",
         .jstr "In this quick introduction to astronomical research it would be good to cover the basic physics before moving into the particulars of radio astronomy and fast radio bursts (FRBs). Often in physics the universe is portrayed as a soup of quantum particles that do strange quantum things and somehow build up into what is observed in nature. This is typically called *reductionism* in the philosophical parlance. However, there are alternative views like *emergence* where lots of smaller things can become other bigger things with there own behaviors and laws. In classical physics the \"three-body problem\" makes analytical (pen and paper) solutions mostly impossible for any system with 3+ bodies, like the Sun, Earth and moon. Whereas in quantum mechanics and relativity calculating systems with more than 2 particles results in a similar impasse. Usually the way around this is going to numerical solutions and methods, which basically means using the computer to do the calculations!\n",
         .jstr "\n",
         .jstr "For astronomers\u2014with the exception for stellar fusion, quantum line emissions, and a few high-energy processes like the big bang\u2014the majority of the physics is gravitation and electromagnetism (plus the majority of the *quantized* emission spectra, like the rotational and vibrational transisitions of radio astronomy, is typically found experimentally not theoretically, with the major exception being 21cm neutral hydrogen spin-flip transition, which you will encounter if you take quantum physics!). These two areas of physics have a lot in common, e.g., in CGS units astronomers tend to use\n",
         .jstr "\n",
         .jstr "$$ F_\x7bG\x7d = \\frac\x7bG m_1 m_2\x7d\x7br^2\x7d \\;\\; \\& \\;\\; F_\x7bEM\x7d = \\frac\x7bq_1 q_2\x7d\x7br^2\x7d, $$\n",
         .jstr "\n",
         .jstr "where the \"charge\" ($q_i$ for electromagnetism) of gravity is typically mass, $m_i$, but could be energy $E = \\gamma m c^2$, and $r$ is the radial distance between the charges; although they are typically compared by strength: the ratio of the gravitational to electromagnetic force **for particles** is on the order of $\\sim 10^\x7b42\x7d$, with gravity being the lesser. For astronomical bodies, however, gravitation is often playing the larger role. Magnetic fields, which are harder to observe than massive (hot) things, are often neglected (especially in undergraduate classes). Radio astronomy is probably the best tool for visualizing magnetic fields outside of the solar system for a variety of reasons\u2014but mostly because of the way electromagnetic (radio) waves propagate through regions with magnetic fields (spectral line splitting, i.e., the Zeeman effect, and a few other techniques like polarization can be used in certain cases at other wavebands).\n",
         .jstr "\n",
         .jstr "If you have completed the $5/7$ series or equivalent you probably have seen Maxwell\x27s equations. These come up in an area of astronomy called magnetohydrodynamics where they are combined with the equations of fluids, which typically includes gravity, to produce a system of equations that can be used to model plasma and other astrophysical objects like accretion disks. This is a very involved field\u2014but is much easier than trying to solve Schrodinger\x27s equation for zillions of particles\u2014so the important results and tools like dispersion relations will be covered below without any derivations, just hand wavy arguments and pictures (observational astronomers, like Faraday, typically think about magnetic fields as *lines of force* anyways). The prototypical image of dispersion is the prism and there is also an image of magnetic field lines in radio-loud galaxy Centarus A\n",
         .jstr "\n",
         .jstr "![prism](images/prism.jpeg)\n",
         .jstr "\n",
         .jstr "![cenA](images/cenA.png)"])],
     .jobj [("cell_type", .jstr "markdown"),
       ("id", .jstr "signed-minneapolis"),
       ("metadata", .jobj []),
       ("source", .jarr [.jstr "(images from: https://www.cyberphysics.co.uk/topics/light/dispersion.htm and https://www.sofia.usra.edu/publications/science-results-archive/warped-magnetic-field-centaurus). Of course, radio waves are not as colorful altough they can make sounds! Thunderstorms are very bright sources of radio waves and actually power a resonance in the Earth\x27s atmosphere that pulsates at around $7$ Hz; the FRBs are much more energetic and are typically oscillating around $1$ GHz (for comparison, Wi-Fi and microwave ovens operate around $2.4/5$ GHz).\n",
         .jstr "\n",
         .jstr "\n",
         .jstr "The most important physics for FRBs and radio astronomy, at the basic level, will be the concepts of luminosity and flux density. Luminosity, $L$, is basically a pseudonym for power or $E/t$ (energy/time). For a black body (an object in thermal equilibrium, i.e., roughly the same temperature as its surroundings) the luminosity is given by the Steffan-Boltzmann equation\n",
         .jstr "\n",
         .jstr "$$ L = 4\\pi r_*^2 \\sigma T^4$$\n",
         .jstr "\n",
         .jstr "where $r_*$ is the radius of the object, $\\sigma$ is the Steffan-Boltzmann constant, and $T$ is the temperature of the object. The flux density then is is defined as \n",
         .jstr "\n",
         .jstr "$$ F = \\frac\x7bL\x7d\x7b4\\pi r_\x7bpath\x7d^2 \x7d $$\n",
         .jstr "\n",
         .jstr "which is essentailly luminosity/surface area with $r_\x7bpath\x7d$ being the path of a given ray being emitted from the luminous object (usually assumed to be a black body). Stars, for example, are not perfect black bodies, but they are close enough that there \"surface\" temperature (the photosphere) is used as an \"effective\" temperature ($T_\\odot \\approx 5777 $) for the equation above and the results are in generally good agreement with observations. The following image shows the difference between a perfect blackbody and the Sun\x27s actualy spectrum.\n",
         .jstr "\n",
         .jstr "![](images/sun_spectrum.png)\n",
         .jstr "\n",
         .jstr "Image source: [https://physics.stackexchange.com/questions/130209/how-can-it-be-that-the-sun-emits-more-than-a-black-body](https://physics.stackexchange.com/questions/130209/how-can-it-be-that-the-sun-emits-more-than-a-black-body).\n",
         .jstr "\n",
         .jstr "The Steffan-Boltzman law above comes from integrating the Planck black body formula\n",
         .jstr "\n",
         .jstr "$$ B(\\nu, T) = \\frac\x7b2 h \\nu^3 \x7d\x7bc^2\x7d \\frac\x7b1\x7d\x7be^\x7bh \\nu / k_B T\x7d - 1 \x7d $$\n",
         .jstr "\n",
         .jstr "over all frequencies, $\\nu$. $h$ is Planck\x27s constant, $k_B$ is Boltzmann\x27s constant, and $c$ is the speed of light. For radio astronomy, at relatively low frequencies, this formula can be simplified with a Taylor series approximation for the exponential. This is known as the Rayleigh-Jeans limit. When $h\\nu \\ll k_B T$ the exponential can be approximated as\n",
         .jstr "\n",
         .jstr "$$ e^\x7bh \\nu / k_B T\x7d \\approx 1 + \\frac\x7bh \\nu\x7d\x7bk_B T\x7d$$\n",
         .jstr "\n",
         .jstr "and then the two ones cancel out yielding the following (approximate) formula\n",
         .jstr "\n",
         .jstr "$$ B(\\nu, T) = \\frac\x7b2 h \\nu^2 k_B T_B \x7d\x7bc^2\x7d $$\n",
         .jstr "\n",
         .jstr "where the temperature is known as the \"brightness temperature\" $T_B$. This allows radio astronomers to get an approximate temperature for objects based on the flux recived, *if the object is in thermodynamic equilibrium*. Anything in a spectrum from an object that is not like a black body curve means there is non-thermal emission. For optical observations this generally means spectral lines; for x-ray and $\\gamma$-ray there are high-energy events like supernovae that are not thermalized; and for radio there are free-free radiation and synchrontron radiation that actually get more intense as frequency goes down! (This is the exact opposite of a black body.)\n",
         .jstr "\n",
         .jstr "\n",
         .jstr "![](images/spectrums.jpg)"])],
     .jobj [("cell_type", .jstr "code"),
       ("execution_count", .jnull),
       ("id", .jstr "protective-shopping"),
       ("metadata", .jobj []),
       ("outputs", .jarr []),
       ("source", .jarr [.jstr "# types of radation mechanisms\n",
         .jstr "\n",
         .jstr "# thermal blackbody and scattering\n",
         .jstr "\n",
         .jstr "# synchrontron and gyro radiation\n",
         .jstr "\n",
         .jstr "# free-free \"braking\" emission\n",
         .jstr "\n",
         .jstr "# molecular lines (masers)\n",
         .jstr "\n",
         .jstr "# atomic lines (lasers)\n",
         .jstr "\n",
         .jstr "# recombination radiation (HII regions)"])],
     .jobj [("cell_type", .jstr "markdown"),
       ("id", .jstr "mysterious-booth"),
       ("metadata", .jobj []),
       ("source", .jarr [.jstr "at the higher level the [inverse square laws](https://en.wikipedia.org/wiki/Inverse-square_law) above are replaced with *fields* and take the form\n",
         .jstr "\n",
         .jstr "$$ \\mathbf\x7bF_\x7bG\x7d\x7d = m \\left( \\mathbf\x7bE_\x7bG\x7d\x7d + \\mathbf\x7bv\x7d \\times \\mathbf\x7bB_\x7bG\x7d\x7d \\right)\\;\\; \\& \\;\\; \\mathbf\x7bF_\x7bEM\x7d\x7d = q \\left( \\mathbf\x7bE\x7d + \\mathbf\x7bv\x7d \\times \\mathbf\x7bB\x7d \\right)$$\n",
         .jstr "\n",
         .jstr "where the electric field is $\\mathbf\x7bE_i\x7d$, magnetic field is $\\mathbf\x7bB_i\x7d$, and $\\mathbf\x7bE_\x7bG\x7d\x7d$ is the gravitational field and $\\mathbf\x7bB_\x7bG\x7d\x7d$ is the \"gravitomagnetic\" field; these can be compared to the more \"fundamental\" $\\mathbf\x7bF\x7d = m \\mathbf\x7ba\x7d$. These laws are quite exact; in astrophysics, the level of exactness required can vary quite a bit depending on the precision of the observations, usually $\\mathbf\x7bB_\x7bG\x7d\x7d$ can only be measured in the regions around extremly massive, compact objects like black holes and neutron stars, although it has been measured in the vicinity of the Earth. Both of the sets of fields are theoretically derived from the theory of relativity.\n",
         .jstr "\n",
         .jstr "For spectral lines, high precision is key to Doppler shifts, however, very often this requirement is relaxed and scaling relations are used instead to get a feeling for how things work. This \"order of magnitude\" thinking is a great skill to have in your back pocket in case you ever need to do a \"back of the envelope\" calculation. Instead of an equals sign or even an approximate sign the tilda or twiddle is used (if units are left out a proportionality sign should be used). In radio astronomy the Rayleigh-Jeans approximation is very useful\n",
         .jstr "\n",
         .jstr "compared to the more accurate Planck black body formula for objects in thermal equilibrium. \n",
         .jstr "\n",
         .jstr "FRB scaling relations, plasma scaling relations, magnetic field scaling relations, cosmological scaling relations, etc."])],
     .jobj [("cell_type", .jstr "markdown"),
       ("id", .jstr "shared-priest"),
       ("metadata", .jobj []),
       ("source", .jarr [.jstr "Beta\n",
         .jstr "Reynolds Number\n",
         .jstr "Magnetic Reynolds Number\n",
         .jstr "\n",
         .jstr "FRB like intergalactic aurora"])],
     .jobj [("cell_type", .jstr "code"),
       ("execution_count", .jnum 1),
       ("id", .jstr "ideal-holly"),
       ("metadata", .jobj []),
       ("outputs", .jarr []),
       ("source", .jarr [.jstr "#ariawazhere"])],
     .jobj [("cell_type", .jstr "markdown"),
       ("id", .jstr "binary-colony"),
       ("metadata", .jobj []),
       ("source", .jarr [.jstr "## Plasma"])],
     .jobj [("cell_type", .jstr "code"),
       ("execution_count", .jnum 2),
       ("id", .jstr "bfa91d73"),
       ("metadata", .jobj []),
       ("outputs", .jarr []),
       ("source", .jarr [.jstr "# basic plasma \n",
         .jstr "\n",
         .jstr "# plasma parameter space\n",
         .jstr "\n",
         .jstr "# Debye length (Debye-Huckle potential)\n",
         .jstr "\n",
         .jstr "# dispersion relations (types of waves)\n",
         .jstr "Different plane waves have different propogation velocities\n"])],
     .jobj [("cell_type", .jstr "markdown"),
       ("id", .jstr "better-opinion"),
       ("metadata", .jobj []),
       ("source", .jarr [.jstr "Example of radio wave dispersion \n",
         .jstr "\n",
         .jstr "![pcloud](images/plasma-cloud-diagram.jpg)\n",
         .jstr "\n",
         .jstr "(image source: https://skyandtelescope.org/astronomy-news/twinkling-quasar-hints-at-mysterious-nearby-plasma-cloud/)"])],
     .jobj [("cell_type", .jstr "markdown"),
       ("id", .jstr "german-posting"),
       ("metadata", .jobj []),
       ("source", .jarr [.jstr "## Radio Astronomy"])],
     .jobj [("cell_type", .jstr "code"),
       ("execution_count", .jnum 1),
       ("id", .jstr "instant-constitutional"),
       ("metadata", .jobj []),
       ("outputs", .jarr []),
       ("source", .jarr [.jstr "# single dish and interferometry (angular resolution)\n",
         .jstr "\n",
         .jstr "# fourier transforms for interferometry and spectrometry\n",
         .jstr "\n",
         .jstr "# FRB-specific telescopes and 21cm surveys"])],
     .jobj [("cell_type", .jstr "markdown"),
       ("id", .jstr "forward-elite"),
       ("metadata", .jobj []),
       ("source", .jarr [.jstr "## Cosmology"])],
     .jobj [("cell_type", .jstr "code"),
       ("execution_count", .jnull),
       ("id", .jstr "mighty-logistics"),
       ("metadata", .jobj []),
       ("outputs", .jarr []),
       ("source", .jarr [.jstr "# general relativity\n",
         .jstr "\n",
         .jstr "# dispersion relations\n",
         .jstr "\n",
         .jstr "# intergalactic medium"])]]),
   ("metadata", .jobj [("kernelspec", .jobj [("display_name", .jstr "Python 3"),
       ("language", .jstr "python"),
       ("name", .jstr "python3")]),
     ("language_info", .jobj [("codemirror_mode", .jobj [("name", .jstr "ipython"),
         ("version", .jnum 3)]),
       ("file_extension", .jstr ".py"),
       ("mimetype", .jstr "text/x-python"),
       ("name", .jstr "python"),
       ("nbconvert_exporter", .jstr "python"),
       ("pygments_lexer", .jstr "ipython3"),
       ("version", .jstr "3.8.8")])]),
   ("nbformat", .jnum 4),
   ("nbformat_minor", .jnum 5)]

/-- Look a key up in a JSON object's field list (first occurrence). -/
def jlookup (k : String) : List (String × JValue) → Option JValue
  | [] => none
  | p :: rest => if p.1 == k then some p.2 else jlookup k rest

/-- A notebook cell as the nbformat-4 schema describes it: its
`cell_type`, its `id`, and its `source` as the list of source lines. -/
structure Cell where
  cellType : String
  id : String
  source : List String
deriving DecidableEq

/-- Read a list of JSON strings. -/
def strList : List JValue → Option (List String)
  | [] => some []
  | .jstr s :: rest =>
      match strList rest with
      | some ss => some (s :: ss)
      | none => none
  | _ :: _ => none

/-- Read one cell object: it must carry a string `cell_type`, a string
`id`, and a `source` array of strings. -/
def cellOfJson : JValue → Option Cell
  | .jobj fields =>
      match jlookup "cell_type" fields, jlookup "id" fields,
            jlookup "source" fields with
      | some (.jstr t), some (.jstr i), some (.jarr src) =>
          match strList src with
          | some lines => some ⟨t, i, lines⟩
          | none => none
      | _, _, _ => none
  | _ => none

/-- Read a list of cells. -/
def cellList : List JValue → Option (List Cell)
  | [] => some []
  | v :: rest =>
      match cellOfJson v, cellList rest with
      | some c, some cs => some (c :: cs)
      | _, _ => none

/-- Read the ordered cell sequence of a notebook document. -/
def cellsOfJson (j : JValue) : Option (List Cell) :=
  match j with
  | .jobj fields =>
      match jlookup "cells" fields with
      | some (.jarr l) => cellList l
      | _ => none
  | _ => none

/-- The ordered cells of `src/ULAB_FRBs.ipynb`. -/
def ulabCells : List Cell := (cellsOfJson ulabJson).getD []

/-- Whitespace as Python's tokenizer sees it within a logical line. -/
def isWsChar (c : Char) : Bool :=
  c == ' ' || c == '\t' || c == '\n' || c == '\r'

/-- A blank source line: only whitespace. -/
def isBlankLine (s : String) : Bool := s.data.all isWsChar

/-- A comment line: its first non-whitespace character is `#`. -/
def isCommentLine (s : String) : Bool :=
  match s.data.dropWhile isWsChar with
  | c :: _ => c == '#'
  | [] => false

/-- A line of a code cell that the kernel would actually execute:
neither blank nor a comment. -/
def isExecLine (s : String) : Bool := !(isBlankLine s) && !(isCommentLine s)

/-- Does `l` start with the characters of `p`? -/
def listBeginsWith : List Char → List Char → Bool
  | [], _ => true
  | _ :: _, [] => false
  | p :: ps, c :: cs => p == c && listBeginsWith ps cs

/-- An import statement, in either of the two forms the notebook uses:
`import module ...` or `from module import name`. -/
def isImportLine (s : String) : Bool :=
  let t := s.data.dropWhile isWsChar
  listBeginsWith "import ".data t || listBeginsWith "from ".data t

/-- Split a line into its whitespace-separated words
(accumulator-based worker). -/
def splitWordsGo : List Char → List Char → List (List Char)
  | [], acc => if acc.isEmpty then [] else [acc.reverse]
  | c :: rest, acc =>
      if isWsChar c then
        if acc.isEmpty then splitWordsGo rest []
        else acc.reverse :: splitWordsGo rest []
      else splitWordsGo rest (c :: acc)

/-- Split a line into its whitespace-separated words. -/
def splitWords (l : List Char) : List (List Char) := splitWordsGo l []

/-- The keywords of Python 3.8. -/
def pyKeywords : List String :=
  ["False", "None", "True", "and", "as", "assert", "async", "await",
   "break", "class", "continue", "def", "del", "elif", "else", "except",
   "finally", "for", "from", "global", "if", "import", "in", "is",
   "lambda", "nonlocal", "not", "or", "pass", "raise", "return", "try",
   "while", "with", "yield"]

/-- A purely alphabetic, nonempty word: a plain Python NAME token. -/
def isAlphaWord (w : List Char) : Bool := !w.isEmpty && w.all Char.isAlpha

/-- Two adjacent plain NAME tokens, neither a keyword, at the start of a
logical line: Python 3.8 rejects such a line with a `SyntaxError`
(a NAME may not directly follow another NAME in any production that can
start a statement).  This is the shape of the one ill-formed line of the
notebook.  The check is deliberately conservative: it reports `true`
only when the line surely does not parse. -/
def isBadStmtLine (s : String) : Bool :=
  match splitWords s.data with
  | w1 :: w2 :: _ =>
      isAlphaWord w1 && isAlphaWord w2 &&
      !(pyKeywords.contains (String.mk w1)) &&
      !(pyKeywords.contains (String.mk w2))
  | _ => false

/-- How executing one code cell can fail.  The kernel compiles the whole
cell before running any of it, so an ill-formed line makes the cell fail
with a `SyntaxError` no matter what any import would have done; an
otherwise well-formed cell can fail only where it imports a library. -/
inductive Failure where
  | badParse : Failure
  | importFailure : Failure
deriving DecidableEq

/-- The failures executing a code cell can possibly produce, under the
compile-then-run model above: an ill-formed line fails the whole cell at
compile time; otherwise only an import statement can fail (a blank or
comment line cannot). -/
def cellPossibleFailures (c : Cell) : List Failure :=
  if c.source.any isBadStmtLine then [Failure.badParse]
  else if c.source.any isImportLine then [Failure.importFailure]
  else []

/-- The names an import line binds, covering the two statement forms the
notebook contains: `import module.sub as y` binds `y`, and
`from module import y` binds `y`.  Any other line binds nothing. -/
def importedNames (s : String) : List String :=
  match (splitWords s.data).map (fun w => String.mk w) with
  | ["import", _, "as", y] => [y]
  | ["from", _, "import", y] => [y]
  | _ => []

/-- The names running a code cell binds: nothing when the cell does not
compile (a `SyntaxError` aborts the cell before any line runs), else the
names its import lines bind.  No cell of the notebook contains an
assignment, so imports are the only binding construct in play. -/
def cellBindings (c : Cell) : List String :=
  if c.source.any isBadStmtLine then []
  else (c.source.map importedNames).flatten

/-- The thirteen names the notebook's import cell binds, in order. -/
def boundNames : List String :=
  ["u", "c", "np", "plt", "tqdm", "signal", "integrate", "fftpack",
   "optimize", "ndimage", "dispersion", "formulary", "simulation"]

/-- An identifier character of Python: letter, digit or underscore. -/
def isIdentChar (c : Char) : Bool := c.isAlpha || c.isDigit || c == '_'

/-- Maximal runs of identifier characters in a line
(accumulator-based worker). -/
def identTokensGo : List Char → List Char → List (List Char)
  | [], acc => if acc.isEmpty then [] else [acc.reverse]
  | c :: rest, acc =>
      if isIdentChar c then identTokensGo rest (c :: acc)
      else if acc.isEmpty then identTokensGo rest []
      else acc.reverse :: identTokensGo rest []

/-- Maximal runs of identifier characters in a line: every place a
Python NAME token could occur is such a run. -/
def identTokens (l : List Char) : List (List Char) := identTokensGo l []

/-- Does a cell reference the name `n`?  A reference can only occur on a
line the kernel executes (blank lines and comments are discarded before
parsing), and must appear there as a maximal identifier token. -/
def cellReferences (c : Cell) (n : String) : Bool :=
  c.source.any (fun s =>
    isExecLine s && (identTokens s.data).any (fun t => String.mk t == n))

/-- An IPython magic line: its first non-whitespace character is `%`.
The kernel, not Python, interprets such a line. -/
def isMagicLine (s : String) : Bool :=
  match s.data.dropWhile isWsChar with
  | c :: _ => c == '%'
  | [] => false

/-- Does each element of the `cells` array carry a `cell_type` that is
either `"markdown"` or `"code"`? -/
def cellTypeOk (j : JValue) : Bool :=
  match j with
  | .jobj fields =>
      match jlookup "cell_type" fields with
      | some (.jstr t) => t == "markdown" || t == "code"
      | _ => false
  | _ => false

/-- Conformance of the document to what the claims use of nbformat 4:
the top level is an object whose `cells` field is an array of cells each
tagged `"markdown"` or `"code"`, and whose `nbformat` field is the
number 4. -/
def conformsNbformat4 (j : JValue) : Bool :=
  match j with
  | .jobj fields =>
      (match jlookup "cells" fields with
       | some (.jarr cs) => cs.all cellTypeOk
       | _ => false) &&
      (match jlookup "nbformat" fields with
       | some (.jnum n) => n == 4
       | _ => false)
  | _ => false

/-- The image scanner's state while walking markdown text for the
embedded-image syntax of markdown. -/
inductive ImgState where
  | text : ImgState
  | sawBang : ImgState
  | alt : ImgState
  | sawClose : ImgState
  | path : ImgState

/-- Collect the path of every markdown image reference
(the text between the parentheses of an occurrence of the pattern
described by the states: a bang, an open bracket, an alt text, a close
bracket, then the parenthesized path). -/
def imgScan : List Char → ImgState → List Char → List (List Char)
  | [], _, _ => []
  | c :: rest, .text, _ =>
      if c == '!' then imgScan rest .sawBang [] else imgScan rest .text []
  | c :: rest, .sawBang, _ =>
      if c == '[' then imgScan rest .alt []
      else if c == '!' then imgScan rest .sawBang []
      else imgScan rest .text []
  | c :: rest, .alt, _ =>
      if c == ']' then imgScan rest .sawClose [] else imgScan rest .alt []
  | c :: rest, .sawClose, _ =>
      if c == '(' then imgScan rest .path [] else imgScan rest .text []
  | c :: rest, .path, acc =>
      if c == ')' then acc.reverse :: imgScan rest .text []
      else imgScan rest .path (c :: acc)

/-- The paths of all images a cell embeds via markdown image syntax. -/
def cellImagePaths (c : Cell) : List (List Char) :=
  imgScan (c.source.map String.data).flatten .text []


/-- The one ill-formed line of the notebook: line 8 of code cell
`bfa91d73`, bare prose in a code cell. -/
def proseLine : String :=
  "Different plane waves have different propogation velocities\n"

/-- Lines that define a function, a class, or an anonymous function, or
assign to a name: the constructs that would introduce a reusable
abstraction or bind data.  A line does so when, after leading
whitespace, it opens a `def` or `class` statement, mentions `lambda` as
an identifier token, or contains `=` (covering assignments, augmented
assignments and keyword arguments alike). -/
def introducesAbstraction (s : String) : Bool :=
  let t := s.data.dropWhile isWsChar
  listBeginsWith "def ".data t || listBeginsWith "class ".data t ||
    (identTokens s.data).any (fun w => String.mk w == "lambda") ||
    s.data.contains '='

/-- C1, the claim as the spec states it, is false on the code: code cell
`bfa91d73` contains the line `proseLine`, which is neither blank, nor a
comment, nor an import statement.  The first conjunct negates the claim
as stated; the second names the concrete failing input. -/
theorem C1_claim_false :
    (¬ ∀ c ∈ ulabCells, c.cellType = "code" →
        ∀ s ∈ c.source,
          isBlankLine s = true ∨ isCommentLine s = true ∨
            isImportLine s = true) ∧
    (∃ c ∈ ulabCells, c.id = "bfa91d73" ∧ c.cellType = "code" ∧
        proseLine ∈ c.source ∧ isBlankLine proseLine = false ∧
        isCommentLine proseLine = false ∧ isImportLine proseLine = false) := by
  decide

/-- C1, amended: every line of every code cell of the notebook is an
import, a comment line, or a blank line, except for the single
bare prose line `proseLine` in code cell `bfa91d73`. -/
theorem C1_code_cells_only_imports_comments :
    ∀ c ∈ ulabCells, c.cellType = "code" →
      ∀ s ∈ c.source,
        isBlankLine s = true ∨ isCommentLine s = true ∨
          isImportLine s = true ∨ s = proseLine := by
  decide


/-- Witness for C1 at a concrete input: the single line of code cell
`ideal-holly`, a comment. -/
theorem C1_code_cells_only_imports_comments_witness :
    isBlankLine "#ariawazhere" = true ∨ isCommentLine "#ariawazhere" = true ∨
      isImportLine "#ariawazhere" = true ∨ "#ariawazhere" = proseLine :=
  C1_code_cells_only_imports_comments
    ⟨"code", "ideal-holly", ["#ariawazhere"]⟩ (by decide) (by decide)
    "#ariawazhere" (by decide)

/-- C2, the claim as the spec states it, is false on the code: executing
code cell `bfa91d73` fails with a `SyntaxError` (the cell does not
compile), which is not an import failure; so an import failure is not
the only possible failure.  The second conjunct names the concrete
failing cell and its failure. -/
theorem C2_claim_false :
    (¬ ∀ c ∈ ulabCells, c.cellType = "code" →
        cellPossibleFailures c = [] ∨
          cellPossibleFailures c = [Failure.importFailure]) ∧
    (∃ c ∈ ulabCells, c.id = "bfa91d73" ∧ c.cellType = "code" ∧
        cellPossibleFailures c = [Failure.badParse]) := by
  decide

/-- C2, amended: every code cell other than `bfa91d73` can fail only by
an import failure (and the cells with no import cannot fail at all),
while `bfa91d73` fails with a `SyntaxError` regardless of whether any
library import would have succeeded. -/
theorem C2_only_import_failures_elsewhere :
    (∀ c ∈ ulabCells, c.cellType = "code" → c.id ≠ "bfa91d73" →
        cellPossibleFailures c = [] ∨
          cellPossibleFailures c = [Failure.importFailure]) ∧
    (∃ c ∈ ulabCells, c.id = "bfa91d73" ∧ c.cellType = "code" ∧
        cellPossibleFailures c = [Failure.badParse]) := by
  decide

/-- C3: no code cell of the notebook defines a function, a class, an
anonymous function, or binds a name by assignment; indeed every line of
every code cell is a blank line, a comment line, an import statement, or
the one bare prose line, none of which introduces a reusable
abstraction. -/
theorem C3_no_reusable_abstraction :
    ∀ c ∈ ulabCells, c.cellType = "code" →
      ∀ s ∈ c.source,
        introducesAbstraction s = false ∧
          (isBlankLine s = true ∨ isCommentLine s = true ∨
            isImportLine s = true ∨ s = proseLine) := by
  decide


/-- Witness for C3 at a concrete input: the single line of code cell
`ideal-holly`. -/
theorem C3_no_reusable_abstraction_witness :
    introducesAbstraction "#ariawazhere" = false ∧
      (isBlankLine "#ariawazhere" = true ∨
        isCommentLine "#ariawazhere" = true ∨
        isImportLine "#ariawazhere" = true ∨ "#ariawazhere" = proseLine) :=
  C3_no_reusable_abstraction ⟨"code", "ideal-holly", ["#ariawazhere"]⟩
    (by decide) (by decide) "#ariawazhere" (by decide)

/-- C4: exactly one code cell of the notebook — `composed-starter` —
contains an import statement, and no name bound by its imports is
referenced in any other cell.  A cell references a name when the name
occurs as a maximal identifier token on a line the kernel executes (a
non-blank, non-comment line of a code cell); markdown cells are never
parsed as Python, so only code cells can reference a binding. -/
theorem C4_single_import_cell_names_unreferenced :
    ((ulabCells.filter
        (fun c => c.cellType == "code" && c.source.any isImportLine)).map
          Cell.id = ["composed-starter"]) ∧
    (∀ c ∈ ulabCells, c.cellType = "code" → c.id ≠ "composed-starter" →
        ∀ n ∈ boundNames, cellReferences c n = false) := by
  decide

/-- C5: the notebook document (`ulabJson`, the parse tree of the file,
whose existence as a `JValue` witnesses that the file is valid JSON) is
an object carrying an ordered `cells` array in which every cell has
`cell_type` either `"markdown"` or `"code"` and whose `nbformat` is 4;
and reading that ordered cell sequence succeeds and yields
`ulabCells`. -/
theorem C5_valid_nbformat4_document :
    conformsNbformat4 ulabJson = true ∧
      cellsOfJson ulabJson = some ulabCells := by
  decide

/-- C6: every image a markdown cell of the notebook embeds is referenced
by a path that starts with `images/` — a relative path under the
`images/` directory, so in particular not an absolute path and not a
URL — and no code cell embeds an image or calls anything (no line a code
cell executes even contains an opening parenthesis, so no fetching or
display call exists in code). -/
theorem C6_images_relative_paths :
    (∀ c ∈ ulabCells, c.cellType = "markdown" →
        ∀ p ∈ cellImagePaths c, listBeginsWith "images/".data p = true) ∧
    (∀ c ∈ ulabCells, c.cellType = "code" →
        cellImagePaths c = [] ∧
          ∀ s ∈ c.source, isExecLine s = true →
            s.data.contains '(' = false) := by
  decide

/-- C7: running all code cells creates exactly the thirteen module-name
bindings of the single import cell and nothing else: the bindings of the
code cells in order flatten to `boundNames`, every code cell other than
`composed-starter` binds nothing (its lines are comments and blanks, or
the cell fails to compile and so runs nothing), and no line of any code
cell contains `=`, so no existing binding is assigned to or otherwise
mutated. -/
theorem C7_bindings_only_the_imports :
    (((ulabCells.filter (fun c => c.cellType == "code")).map
        cellBindings).flatten = boundNames) ∧
    (∀ c ∈ ulabCells, c.cellType = "code" → c.id ≠ "composed-starter" →
        cellBindings c = []) ∧
    (∀ c ∈ ulabCells, c.cellType = "code" →
        ∀ s ∈ c.source, s.data.contains '=' = false) := by
  decide

/-- C8: no code cell performs any I/O: every line a code cell would
execute is an import statement or the one ill-formed line (which aborts
its cell before anything runs), and no executed line contains an opening
parenthesis or the tokens `open` or `print`, so no code cell opens a
file, makes a network request, writes output, or calls any plotting or
display function. -/
theorem C8_code_cells_no_io :
    ∀ c ∈ ulabCells, c.cellType = "code" →
      ∀ s ∈ c.source, isExecLine s = true →
        (isImportLine s = true ∨ isBadStmtLine s = true) ∧
          s.data.contains '(' = false ∧
          (identTokens s.data).contains "open".data = false ∧
          (identTokens s.data).contains "print".data = false := by
  decide


/-- Witness for C8 at a concrete input: the one executed line of code
cell `bfa91d73`. -/
theorem C8_code_cells_no_io_witness :
    (isImportLine proseLine = true ∨ isBadStmtLine proseLine = true) ∧
      proseLine.data.contains '(' = false ∧
      (identTokens proseLine.data).contains "open".data = false ∧
      (identTokens proseLine.data).contains "print".data = false :=
  C8_code_cells_no_io
    ⟨"code", "bfa91d73",
      ["# basic plasma \n", "\n", "# plasma parameter space\n", "\n",
       "# Debye length (Debye-Huckle potential)\n", "\n",
       "# dispersion relations (types of waves)\n", proseLine]⟩
    (by decide) (by decide) proseLine (by decide) (by decide)

/-- C9: the notebook has a code cell with id `bfa91d73` whose source
contains the bare prose line `proseLine`; that line is two adjacent
plain names and so is not a valid Python statement, hence executing the
cell fails with a `SyntaxError` at compile time — before any line runs,
so regardless of whether any library import succeeds (the cell contains
no import at all). -/
theorem C9_bfa91d73_is_invalid_python :
    ∃ c ∈ ulabCells, c.id = "bfa91d73" ∧ c.cellType = "code" ∧
      proseLine ∈ c.source ∧ isBadStmtLine proseLine = true ∧
      cellPossibleFailures c = [Failure.badParse] ∧
      c.source.any isImportLine = false := by
  decide

/-- C10: in the import cell `composed-starter` the matplotlib magic line
occurs only as the comment `# %matplotlib notebook`, no line of the cell
is a magic line (none starts with `%`), every line is a blank, a comment
or an import statement, and the cell's bindings are exactly the thirteen
imported module names — so running it invokes no IPython magic, selects
no plotting backend, and its only effect is binding those names (it can
fail only on an import). -/
theorem C10_magic_line_commented_out :
    ∃ c ∈ ulabCells, c.id = "composed-starter" ∧ c.cellType = "code" ∧
      "# %matplotlib notebook" ∈ c.source ∧
      isCommentLine "# %matplotlib notebook" = true ∧
      c.source.all (fun s => !(isMagicLine s)) = true ∧
      c.source.all (fun s =>
        isBlankLine s || isCommentLine s || isImportLine s) = true ∧
      cellBindings c = boundNames ∧
      cellPossibleFailures c = [Failure.importFailure] := by
  decide

end ULab
